import Mathlib

/-!
# Verification of the Deep Swamp renderer core

A shallow embedding, over exact rationals and integers, of the core of the
pseudo-3D swamp renderer: the chunk streaming store (`manageChunks`), the
depth-culled and depth-sorted render queue (`pushRenderItem` and the frame
sort), the perspective projection (`project3DTo2D`), procedural plant
creation (`createPlant`), the fish and crab per-frame agent updates, and the
camera physics step.

Conventions used throughout:
* JS `number` values are modelled as `ℚ` (exact rational arithmetic).
* `Math.random()` draws are passed in explicitly as parameters `r : ℚ`
  assumed to lie in `[0, 1)` where relevant; `randomRange r lo hi`
  mirrors the source's `randomRange(min, max) = Math.random()*(max-min)+min`.
* `Math.sqrt` of a rational is irrational in general, so where the source
  computes `dist = Math.sqrt(dx*dx + dz*dz)` and then both compares and
  divides by it, the distance is passed as an explicit parameter `dist`
  constrained in the theorems by `0 ≤ dist` and `dist ^ 2 = dx ^ 2 + dz ^ 2`.
  Where the source only compares a square root against a constant, the
  equivalent comparison of squares is used directly.
* A JS arithmetic result that is not a finite number (NaN or ±Infinity,
  arising only from division by zero in this code) is modelled by `Option`:
  `none` marks a state whose position fields stopped being finite numbers.
-/

namespace DeepSwamp

/-! ## Constants (verbatim from the source header) -/

def CHUNK_SIZE : ℚ := 3000
def RENDER_DISTANCE_CHUNKS : ℤ := 1
def VISIBILITY_DEPTH : ℚ := 3500
def PLANTS_PER_CHUNK : ℕ := 40
def FISH_PER_CHUNK : ℕ := 15
def CRABS_PER_CHUNK : ℕ := 4
def FRICTION : ℚ := 0.85
def ACCELERATION : ℚ := 1.5
def MAX_SPEED : ℚ := 20
def GRAVITY : ℚ := 0.8
def JUMP_FORCE : ℚ := 18
def FLOOR_LEVEL : ℚ := 1350
def SURFACE_LEVEL : ℚ := 0
def PLAYER_HEIGHT : ℚ := 140
def DEFAULT_FOCAL_LENGTH : ℚ := 800

/-- `randomRange(min, max)` from the source, with the `Math.random()` draw
`r` made explicit: `Math.random() * (max - min) + min`. -/
def randomRange (r lo hi : ℚ) : ℚ := r * (hi - lo) + lo

/-! ## Chunk store (`manageChunks`)

The source keeps a `Map<string, Chunk>` keyed by `"x,z"` together with the
integers `lastChunkCheckX/Z`.  Which cells are generated, kept and evicted
depends only on the key sequence (the key `"x,z"` always maps to the chunk
with `xIndex = x, zIndex = z`), so the store is embedded as the list of
keys in insertion order — a JS `Map` iterates in insertion order — plus the
last-seen cell. -/

structure ChunkStore where
  lastChunkCheckX : ℤ
  lastChunkCheckZ : ℤ
  chunks : List (ℤ × ℤ)
deriving DecidableEq

/-- Initial state of the effect closure: `lastChunkCheckX = lastChunkCheckZ
= -9999`, empty chunk map. -/
def chunkStoreInit : ChunkStore := ⟨-9999, -9999, []⟩

/-- The camera's chunk cell: `Math.floor(cam.x / CHUNK_SIZE)`. -/
def chunkCell (x : ℚ) : ℤ := ⌊x / CHUNK_SIZE⌋

/-- The cells visited by the generation double loop of `manageChunks`, in
loop order: `x` from `cx - RENDER_DISTANCE_CHUNKS` to
`cx + RENDER_DISTANCE_CHUNKS` outer, `z` likewise inner. -/
def cellScan (cx cz : ℤ) : List (ℤ × ℤ) :=
  ((List.range (2 * RENDER_DISTANCE_CHUNKS + 1).toNat).map
      (fun i => cx - RENDER_DISTANCE_CHUNKS + i)).flatMap
    (fun x =>
      (List.range (2 * RENDER_DISTANCE_CHUNKS + 1).toNat).map
        (fun j => (x, cz - RENDER_DISTANCE_CHUNKS + j)))

/-- `Math.max(Math.abs(chunk.xIndex - cx), Math.abs(chunk.zIndex - cz))`:
Chebyshev distance between grid cells. -/
def chebyshev (a b : ℤ × ℤ) : ℤ := max |a.1 - b.1| |a.2 - b.2|

/-- `manageChunks` from the source.  Early-returns when the camera cell is
unchanged; otherwise records the new cell, inserts (at the end, as a JS
`Map.set` does) every scanned cell that is absent, and deletes every stored
chunk whose Chebyshev distance from the camera cell exceeds
`RENDER_DISTANCE_CHUNKS + 1`. -/
def manageChunks (camX camZ : ℚ) (st : ChunkStore) : ChunkStore :=
  let cx := chunkCell camX
  let cz := chunkCell camZ
  if cx = st.lastChunkCheckX ∧ cz = st.lastChunkCheckZ then st
  else
    let afterGen := (cellScan cx cz).foldl
      (fun acc key => if key ∈ acc then acc else acc ++ [key]) st.chunks
    { lastChunkCheckX := cx
      lastChunkCheckZ := cz
      chunks := afterGen.filter
          (fun c => chebyshev c (cx, cz) ≤ RENDER_DISTANCE_CHUNKS + 1) }

/-- The cells for which the generation loop of `manageChunks` actually calls
`generateChunk`: nothing on the early-return path, otherwise the scanned
cells absent from the store (the scan has no duplicates, so a cell is
generated exactly when it was absent at the start of the loop). -/
def generatedCells (camX camZ : ℚ) (st : ChunkStore) : List (ℤ × ℤ) :=
  let cx := chunkCell camX
  let cz := chunkCell camZ
  if cx = st.lastChunkCheckX ∧ cz = st.lastChunkCheckZ then []
  else (cellScan cx cz).filter (fun key => ¬ key ∈ st.chunks)

/-! ## Projection (`project3DTo2D` from the math utilities) -/

structure Point3D where
  x : ℚ
  y : ℚ
  z : ℚ
deriving DecidableEq

structure Point2D where
  x : ℚ
  y : ℚ
  scale : ℚ
deriving DecidableEq

/-- `project3DTo2D` from the source: translate into camera space, clamp the
depth `z + focalLength` below at 1, scale by `focalLength / depth`. -/
def project3DTo2D (point : Point3D) (cameraX cameraY cameraZ centerX centerY focalLength : ℚ) :
    Point2D :=
  let x := point.x - cameraX
  let y := point.y - cameraY
  let z := point.z - cameraZ
  let depth := max 1 (z + focalLength)
  let scale := focalLength / depth
  { x := centerX + x * scale, y := centerY + y * scale, scale := scale }

/-! ## Render queue

The source pushes `{z: relZ, draw: closure}` onto a per-frame array.  The
draw closure is identified here by the numeric tag of the submission that
created it; the payload of the closure (projection, banking rotation, fog
factor) does not influence which items are queued nor their order, which is
all the queue claims are about. -/

structure Submission where
  x : ℚ
  y : ℚ
  z : ℚ
  tag : ℕ
deriving DecidableEq

structure RenderItem where
  z : ℚ
  tag : ℕ
deriving DecidableEq

/-- `pushRenderItem` from the source: compute `relZ = itemZ - cam.z`, drop
the submission when `relZ < 1 || relZ > VISIBILITY_DEPTH`, otherwise append
it to the frame queue with `relZ` as its sort key. -/
def pushRenderItem (camZ : ℚ) (q : List RenderItem) (s : Submission) : List RenderItem :=
  let relZ := s.z - camZ
  if relZ < 1 ∨ VISIBILITY_DEPTH < relZ then q
  else q ++ [⟨relZ, s.tag⟩]

/-- The frame queue after a sequence of submissions, starting from the
empty array built at the top of `render`. -/
def buildQueue (camZ : ℚ) (subs : List Submission) : List RenderItem :=
  subs.foldl (pushRenderItem camZ) []

/-- `renderQueue.sort((a, b) => b.z - a.z)`: a comparison sort by
descending `z`, modelled by insertion sort with the relation "`a` may come
before `b` iff `b.z ≤ a.z`".  The subsequent `forEach(item => item.draw())`
executes the sorted list in order. -/
def sortQueue (q : List RenderItem) : List RenderItem :=
  List.insertionSort (fun a b => b.z ≤ a.z) q

instance : DecidableRel (fun a b : RenderItem => b.z ≤ a.z) :=
  fun a b => inferInstanceAs (Decidable (b.z ≤ a.z))

instance : IsTotal RenderItem (fun a b => b.z ≤ a.z) :=
  ⟨fun a b => le_total b.z a.z⟩

instance : IsTrans RenderItem (fun a b => b.z ≤ a.z) :=
  ⟨fun _ _ _ hab hbc => le_trans hbc hab⟩

/-! ## Procedural plants (`createPlant` inside `generateChunk`) -/

inductive PlantType
  | ribbon
  | stalk
  | bulb
deriving DecidableEq

structure Plant where
  type : PlantType
  x : ℚ
  z : ℚ
  yBase : ℚ
  height : ℚ
  width : ℚ
  colorHue : ℚ
  segments : ℤ
  phaseOffset : ℚ
  stiffness : ℚ
deriving DecidableEq

/-- The `Math.random()` draws consumed by one `createPlant` call, in source
order.  `phase` carries the already-sampled `randomRange(0, Math.PI * 2)`
value directly, since `π` is irrational; its value plays no role in any
claim. -/
structure PlantRand where
  typeRoll : ℚ
  rX : ℚ
  rZ : ℚ
  rYBase : ℚ
  rHeight : ℚ
  rWidth : ℚ
  rHue : ℚ
  rSegments : ℚ
  phase : ℚ
  rStiffness : ℚ

/-- `createPlant(baseX, baseZ)` from the source.  The source initialises
`type = 'ribbon'`, overwrites it with `'stalk'` when `typeRoll > 0.7`, and
otherwise with `'bulb'` when `typeRoll > 0.9` — the same `if`/`else if`
chain embedded here. -/
def createPlant (baseX baseZ : ℚ) (rnd : PlantRand) : Plant :=
  let typeRoll := rnd.typeRoll
  let type : PlantType :=
    if typeRoll > 0.7 then PlantType.stalk
    else if typeRoll > 0.9 then PlantType.bulb
    else PlantType.ribbon
  { type := type
    x := baseX + randomRange rnd.rX 0 CHUNK_SIZE
    z := baseZ + randomRange rnd.rZ 0 CHUNK_SIZE
    yBase := FLOOR_LEVEL + randomRange rnd.rYBase 0 50
    height := if type = PlantType.stalk then randomRange rnd.rHeight 1500 2500
              else randomRange rnd.rHeight 600 1600
    width := if type = PlantType.stalk then randomRange rnd.rWidth 15 40
             else randomRange rnd.rWidth 8 25
    colorHue := randomRange rnd.rHue 140 175
    segments := if type = PlantType.stalk then 4 else ⌊randomRange rnd.rSegments 8 16⌋
    phaseOffset := rnd.phase
    stiffness := if type = PlantType.stalk then 0.2 else randomRange rnd.rStiffness 0.8 1.5 }

/-- The plant list of `generateChunk(cx, cz)`: one `createPlant` per random
draw (the source performs `PLANTS_PER_CHUNK = 40` iterations; the length of
`rnds` is left free, which only generalises the loop count). -/
def chunkPlants (cx cz : ℤ) (rnds : List PlantRand) : List Plant :=
  rnds.map (createPlant ((cx : ℚ) * CHUNK_SIZE) ((cz : ℚ) * CHUNK_SIZE))

/-! ## Crab agent (per-frame update inside the render loop) -/

inductive CrabState
  | idle
  | walking
deriving DecidableEq

structure Crab where
  x : ℚ
  y : ℚ
  z : ℚ
  size : ℚ
  walkPhase : ℚ
  targetX : ℚ
  targetZ : ℚ
  speed : ℚ
  state : CrabState
  idleTimer : ℚ
deriving DecidableEq

/-- The per-frame crab update from the render loop.  `r1, r2` are the two
`Math.random()` draws consumed on a state transition (idle → walking uses
both for the new target; walking → idle uses `r1` for the new idle timer).
`dist` stands for `Math.sqrt(dx*dx + dz*dz)`, supplied explicitly (see the
header); the walking branch divides by it only under `¬(dist < 10)`, where
it is nonzero, so rational division agrees with the source. -/
def crabUpdate (c : Crab) (dist r1 r2 : ℚ) : Crab :=
  match c.state with
  | CrabState.idle =>
    let t := c.idleTimer - 1
    if t ≤ 0 then
      { c with idleTimer := t
               state := CrabState.walking
               targetX := c.x + randomRange r1 (-400) 400
               targetZ := c.z + randomRange r2 (-200) 200 }
    else { c with idleTimer := t }
  | CrabState.walking =>
    let dx := c.targetX - c.x
    let dz := c.targetZ - c.z
    if dist < 10 then
      { c with state := CrabState.idle, idleTimer := randomRange r1 50 200 }
    else
      { c with x := c.x + dx / dist * c.speed, z := c.z + dz / dist * c.speed }

/-! ## Fish agent (per-frame update inside the render loop) -/

structure Fish where
  x : ℚ
  y : ℚ
  z : ℚ
  speed : ℚ
  size : ℚ
  hue : ℚ
  tailPhase : ℚ
  targetY : ℚ
  targetX : ℚ
  targetZ : ℚ
deriving DecidableEq

/-- The per-frame fish update from the render loop, for a fish of the chunk
at grid `(chunkXIndex, chunkZIndex)`.  `rY` is the `Math.random()` draw of
the vertical wander, `rTX, rTZ` those of the horizontal target re-roll,
`dist` stands for `Math.sqrt(dx*dx + dz*dz)` (see the header).  The source
then computes `fish.x += (dx / dist) * fish.speed * 0.5` (and likewise for
`z`) with NO guard on `dist`: when `dist = 0` the JS division `0 / 0`
yields `NaN` and the fish position stops being a finite number — modelled
by returning `none`.  The camera-avoidance nudge compares
`Math.sqrt(camDx² + camDz²) < 200`, embedded as the equivalent comparison
of squares.  (`fish.tailPhase += 0.2` happens inside the draw closure and
is not part of this motion update.) -/
def fishUpdate (chunkXIndex chunkZIndex : ℤ) (f : Fish) (dist rY rTX rTZ : ℚ)
    (camX camZ : ℚ) : Option Fish :=
  let targetY1 := f.targetY + (rY - 0.5) * 20
  let targetY2 := max (SURFACE_LEVEL + 100) (min (FLOOR_LEVEL - 100) targetY1)
  let y1 := f.y + (targetY2 - f.y) * 0.01
  let dx := f.targetX - f.x
  let dz := f.targetZ - f.z
  let targetX1 :=
    if dist < 20 then (chunkXIndex : ℚ) * CHUNK_SIZE + randomRange rTX 0 CHUNK_SIZE
    else f.targetX
  let targetZ1 :=
    if dist < 20 then (chunkZIndex : ℚ) * CHUNK_SIZE + randomRange rTZ 0 CHUNK_SIZE
    else f.targetZ
  if dist = 0 then none
  else
    let x1 := f.x + dx / dist * f.speed * 0.5
    let z1 := f.z + dz / dist * f.speed * 0.5
    let camDx := x1 - camX
    let camDz := z1 - camZ
    let x2 := if camDx ^ 2 + camDz ^ 2 < 200 ^ 2 then
                (if camDx > 0 then x1 + 5 else x1 - 5)
              else x1
    some { f with y := y1, targetY := targetY2, targetX := targetX1, targetZ := targetZ1,
                  x := x2, z := z1 }

/-! ## Camera / player physics (the frame-top block of `render`)

The per-frame physics is the sequence of mutations of `cameraRef.current`,
split here into one function per source statement group and composed in
source order by `physicsStep`. -/

structure Camera where
  x : ℚ
  y : ℚ
  z : ℚ
  focalLength : ℚ
  targetFocalLength : ℚ
  lookX : ℚ
  lookY : ℚ
  velX : ℚ
  velY : ℚ
  velZ : ℚ
  rotationZ : ℚ
  isGrounded : Bool
deriving DecidableEq

/-- One frame's input snapshot: the four movement intents, the jump and
zoom intents (`keys ... || ui ...` collapsed into one boolean each), and
the normalized pointer position. -/
structure Input where
  forward : Bool
  backward : Bool
  left : Bool
  right : Bool
  jump : Bool
  zoomIn : Bool
  zoomOut : Bool
  mouseX : ℚ
  mouseY : ℚ
deriving DecidableEq

/-- Movement acceleration accumulation (suppressed while the chat is
open), followed by `velX += ax; velZ += az`. -/
def accelStep (chatOpen : Bool) (inp : Input) (c : Camera) : Camera :=
  let ax : ℚ := if chatOpen then 0 else
    (if inp.right then ACCELERATION else 0) - (if inp.left then ACCELERATION else 0)
  let az : ℚ := if chatOpen then 0 else
    (if inp.forward then ACCELERATION else 0) - (if inp.backward then ACCELERATION else 0)
  { c with velX := c.velX + ax, velZ := c.velZ + az }

/-- Jump impulse: while not chatting, with jump intent and grounded, set
`velY = -JUMP_FORCE * gravityMult` and clear `isGrounded`. -/
def jumpStep (chatOpen : Bool) (g : ℚ) (inp : Input) (c : Camera) : Camera :=
  if ¬chatOpen ∧ inp.jump ∧ c.isGrounded then
    { c with velY := -JUMP_FORCE * g, isGrounded := false }
  else c

/-- Unconditional gravity: `velY += GRAVITY * gravityMult`. -/
def gravityStep (g : ℚ) (c : Camera) : Camera :=
  { c with velY := c.velY + GRAVITY * g }

/-- Zoom intents, clamp of the zoom target to `[300, 2000]`, easing of the
focal length toward the target. -/
def zoomStep (chatOpen : Bool) (inp : Input) (c : Camera) : Camera :=
  let t1 := if ¬chatOpen ∧ inp.zoomIn then c.targetFocalLength + 10 else c.targetFocalLength
  let t2 := if ¬chatOpen ∧ inp.zoomOut then t1 - 10 else t1
  let t3 := max 300 (min 2000 t2)
  { c with targetFocalLength := t3, focalLength := c.focalLength + (t3 - c.focalLength) * 0.1 }

/-- Horizontal speed clamp to `[-MAX_SPEED, MAX_SPEED]`. -/
def clampVelStep (c : Camera) : Camera :=
  { c with velX := max (-MAX_SPEED) (min MAX_SPEED c.velX)
           velZ := max (-MAX_SPEED) (min MAX_SPEED c.velZ) }

/-- Velocity integration on all three axes. -/
def integrateStep (c : Camera) : Camera :=
  { c with x := c.x + c.velX, y := c.y + c.velY, z := c.z + c.velZ }

/-- Floor clamp: when the integrated `y` is below the floor plane
(`y > FLOOR_LEVEL - PLAYER_HEIGHT`; larger `y` is lower), snap to the
floor, zero the vertical velocity and set grounded — otherwise clear
grounded. -/
def floorClampStep (c : Camera) : Camera :=
  let floorY := FLOOR_LEVEL - PLAYER_HEIGHT
  if c.y > floorY then { c with y := floorY, velY := 0, isGrounded := true }
  else { c with isGrounded := false }

/-- Banking: ease `rotationZ` toward `velX * 0.001`. -/
def bankStep (c : Camera) : Camera :=
  { c with rotationZ := c.rotationZ + (c.velX * 0.001 - c.rotationZ) * 0.1 }

/-- Friction: multiplicative decay of the horizontal velocities. -/
def frictionStep (c : Camera) : Camera :=
  { c with velX := c.velX * FRICTION, velZ := c.velZ * FRICTION }

/-- Look easing toward the pointer (suppressed while the chat is open). -/
def lookStep (chatOpen : Bool) (inp : Input) (c : Camera) : Camera :=
  if ¬chatOpen then
    { c with lookX := c.lookX + (inp.mouseX * 600 - c.lookX) * 0.1
             lookY := c.lookY + (inp.mouseY * 400 - c.lookY) * 0.1 }
  else c

/-- The full per-frame camera physics update, composing the statement
groups of the source in order. -/
def physicsStep (chatOpen : Bool) (g : ℚ) (inp : Input) (c : Camera) : Camera :=
  lookStep chatOpen inp
    (frictionStep
      (bankStep
        (floorClampStep
          (integrateStep
            (clampVelStep
              (zoomStep chatOpen inp
                (gravityStep g
                  (jumpStep chatOpen g inp
                    (accelStep chatOpen inp c)))))))))

/-! ## Chunk store theorems (claims C1, C7) -/

theorem chunkCell_zero : chunkCell 0 = 0 := by
  norm_num [chunkCell, CHUNK_SIZE]

theorem chunkCell_3000 : chunkCell 3000 = 1 := by
  norm_num [chunkCell, CHUNK_SIZE]

/-- First sync from the empty store with the camera at the origin: the
nine cells around `(0,0)` get generated, in loop order. -/
theorem manageChunks_first :
    manageChunks 0 0 chunkStoreInit =
      ⟨0, 0, [(-1,-1),(-1,0),(-1,1),(0,-1),(0,0),(0,1),(1,-1),(1,0),(1,1)]⟩ := by
  rw [manageChunks, chunkCell_zero]
  decide

/-- After any `manageChunks` call, the recorded last-seen cell is the
camera's current cell (on the early-return path the recorded cell already
equals it). -/
theorem manageChunks_last (camX camZ : ℚ) (st : ChunkStore) :
    (manageChunks camX camZ st).lastChunkCheckX = chunkCell camX ∧
      (manageChunks camX camZ st).lastChunkCheckZ = chunkCell camZ := by
  rw [manageChunks]
  split
  · next h => exact ⟨h.1.symm, h.2.symm⟩
  · exact ⟨rfl, rfl⟩

/-- Claim C1: starting from an empty store, a sync with the camera in cell
`(0,0)` and render radius 1 stores exactly the nine cells
`{-1,0,1} × {-1,0,1}`; a second sync with the camera in cell `(1,0)`
retains every stored chunk at Chebyshev distance at most 2 from `(1,0)`,
generates exactly the three cells of the column `x = 2`, and removes every
chunk at Chebyshev distance greater than 2 from `(1,0)`. -/
theorem chunk_sync_two_steps :
    (manageChunks 0 0 chunkStoreInit).chunks =
        [(-1,-1),(-1,0),(-1,1),(0,-1),(0,0),(0,1),(1,-1),(1,0),(1,1)] ∧
      generatedCells 3000 0 (manageChunks 0 0 chunkStoreInit) =
        [(2,-1),(2,0),(2,1)] ∧
      ((manageChunks 0 0 chunkStoreInit).chunks.filter
          (fun c => chebyshev c (1,0) ≤ 2)).all
        (fun c => (manageChunks 3000 0 (manageChunks 0 0 chunkStoreInit)).chunks.contains c) = true ∧
      (manageChunks 3000 0 (manageChunks 0 0 chunkStoreInit)).chunks.filter
        (fun c => 2 < chebyshev c (1,0)) = [] := by
  have h2 : manageChunks 3000 0 (manageChunks 0 0 chunkStoreInit) =
      ⟨1, 0, [(-1,-1),(-1,0),(-1,1),(0,-1),(0,0),(0,1),(1,-1),(1,0),(1,1),
              (2,-1),(2,0),(2,1)]⟩ := by
    rw [manageChunks_first, manageChunks, chunkCell_3000, chunkCell_zero]
    decide
  refine ⟨by rw [manageChunks_first], ?_, ?_, ?_⟩
  · rw [manageChunks_first, generatedCells, chunkCell_3000, chunkCell_zero]
    decide
  · rw [h2, manageChunks_first]
    decide
  · rw [h2]
    decide

/-- Claim C7: while the camera's chunk cell is unchanged, a second `sync`
is a no-op — the store is left identical and no cell is generated
(edge-triggered contract). -/
theorem chunk_sync_idempotent (pX pZ qX qZ : ℚ) (st : ChunkStore)
    (hx : chunkCell qX = chunkCell pX) (hz : chunkCell qZ = chunkCell pZ) :
    manageChunks qX qZ (manageChunks pX pZ st) = manageChunks pX pZ st ∧
      generatedCells qX qZ (manageChunks pX pZ st) = [] := by
  have hcond : chunkCell qX = (manageChunks pX pZ st).lastChunkCheckX ∧
      chunkCell qZ = (manageChunks pX pZ st).lastChunkCheckZ :=
    ⟨hx.trans (manageChunks_last pX pZ st).1.symm,
     hz.trans (manageChunks_last pX pZ st).2.symm⟩
  constructor
  · rw [manageChunks]
    simp only [if_pos hcond]
  · rw [generatedCells]
    simp only [if_pos hcond]

/-- Witness for C7 at a concrete input: two camera positions inside cell
`(0,0)`. -/
theorem chunk_sync_idempotent_witness :
    manageChunks 100 200 (manageChunks 0 0 chunkStoreInit) =
        manageChunks 0 0 chunkStoreInit ∧
      generatedCells 100 200 (manageChunks 0 0 chunkStoreInit) = [] :=
  chunk_sync_idempotent 0 0 100 200 chunkStoreInit
    (by norm_num [chunkCell, CHUNK_SIZE]) (by norm_num [chunkCell, CHUNK_SIZE])

/-! ## Render queue theorems (claims C2, C3) -/

/-- Every item of `pushRenderItem camZ q s` is an old item of `q` or has
its `relZ` inside the visibility window `[1, VISIBILITY_DEPTH]`. -/
theorem mem_pushRenderItem {camZ : ℚ} {q : List RenderItem} {s : Submission}
    {it : RenderItem} (h : it ∈ pushRenderItem camZ q s) :
    it ∈ q ∨ (1 ≤ it.z ∧ it.z ≤ VISIBILITY_DEPTH) := by
  simp only [pushRenderItem] at h
  split at h
  · exact Or.inl h
  · next hc =>
    push_neg at hc
    rcases List.mem_append.1 h with hq | hnew
    · exact Or.inl hq
    · refine Or.inr ?_
      rcases List.mem_singleton.1 hnew with rfl
      exact ⟨hc.1, hc.2⟩

/-- Every item of the built frame queue has its `relZ` inside the
visibility window. -/
theorem mem_buildQueue_bounds (camZ : ℚ) :
    ∀ (subs : List Submission) (q : List RenderItem) (it : RenderItem),
      it ∈ subs.foldl (pushRenderItem camZ) q →
      it ∈ q ∨ (1 ≤ it.z ∧ it.z ≤ VISIBILITY_DEPTH) := by
  intro subs
  induction subs with
  | nil => exact fun q it h => Or.inl h
  | cons s rest ih =>
    intro q it h
    rcases ih (pushRenderItem camZ q s) it h with hmem | hb
    · exact mem_pushRenderItem hmem
    · exact Or.inr hb

/-- Claim C2: a submission whose `relZ = worldZ - cameraZ` is `< 1` or
`> VISIBILITY_DEPTH` is dropped by `pushRenderItem` (the queue is returned
unchanged), and consequently every item of the executed (sorted) queue has
`relZ` within `[1, VISIBILITY_DEPTH]` — so a submission with `relZ = 0.5`
or `relZ = VISIBILITY_DEPTH + 1` never appears in the executed queue. -/
theorem render_queue_cull :
    (∀ (camZ : ℚ) (q : List RenderItem) (s : Submission),
        (s.z - camZ < 1 ∨ VISIBILITY_DEPTH < s.z - camZ) →
        pushRenderItem camZ q s = q) ∧
      (∀ (camZ : ℚ) (subs : List Submission) (it : RenderItem),
        it ∈ sortQueue (buildQueue camZ subs) →
        1 ≤ it.z ∧ it.z ≤ VISIBILITY_DEPTH) := by
  constructor
  · intro camZ q s h
    simp only [pushRenderItem]
    exact if_pos h
  · intro camZ subs it h
    rw [sortQueue, List.mem_insertionSort] at h
    rcases mem_buildQueue_bounds camZ subs [] it h with hnil | hb
    · exact absurd hnil (List.not_mem_nil it)
    · exact hb

/-- Witness for C2 at concrete inputs: a submission at `relZ = 0.5` and one
at `relZ = VISIBILITY_DEPTH + 1 = 3501` are both dropped, and the one item
of a surviving frame sits inside the visibility window. -/
theorem render_queue_cull_witness :
    pushRenderItem 0 [] ⟨0, 0, 1/2, 0⟩ = [] ∧
      pushRenderItem 0 [] ⟨0, 0, 3501, 1⟩ = [] ∧
      (1 ≤ (⟨100, 2⟩ : RenderItem).z ∧ (⟨100, 2⟩ : RenderItem).z ≤ VISIBILITY_DEPTH) :=
  ⟨render_queue_cull.1 0 [] ⟨0, 0, 1/2, 0⟩ (by norm_num),
   render_queue_cull.1 0 [] ⟨0, 0, 3501, 1⟩ (by norm_num [VISIBILITY_DEPTH]),
   render_queue_cull.2 0 [⟨0, 0, 100, 2⟩] ⟨100, 2⟩
     (by norm_num [sortQueue, buildQueue, pushRenderItem, VISIBILITY_DEPTH,
        List.insertionSort, List.orderedInsert])⟩

/-- Claim C3: the frame queue is executed in descending `relativeZ` order
(the sorted queue is `Sorted` for "`b.z ≤ a.z`"), and for a frame with
three surviving submissions at `relativeZ` 50, 10 and 200 the executed
order is 200, then 50, then 10. -/
theorem render_queue_order :
    (∀ q : List RenderItem,
        List.Sorted (fun a b : RenderItem => b.z ≤ a.z) (sortQueue q)) ∧
      sortQueue (buildQueue 0 [⟨0, 0, 50, 0⟩, ⟨0, 0, 10, 1⟩, ⟨0, 0, 200, 2⟩]) =
        [⟨200, 2⟩, ⟨50, 0⟩, ⟨10, 1⟩] := by
  constructor
  · intro q
    exact List.sorted_insertionSort _ q
  · norm_num [sortQueue, buildQueue, pushRenderItem, VISIBILITY_DEPTH,
      List.insertionSort, List.orderedInsert]

/-! ## Projection theorems (claim C4) -/

/-- Claim C4 as stated is false on the code: at `relativeZ = 0` with the
default focal length 800 the computed depth is `max 1 800 = 800` and the
returned scale is `800 / 800 = 1`, not the focal length. -/
theorem projection_zero_depth_cex :
    (project3DTo2D ⟨0, 0, 0⟩ 0 0 0 0 0 800).scale ≠ 800 := by
  norm_num [project3DTo2D, max_def]

/-- Claim C4 amended: for every point whose z equals the camera z
(`relativeZ = 0`) and every focal length, the computed depth is
`max 1 focalLength` — floored at 1 — and the returned scale is
`focalLength / max 1 focalLength` (which is `focalLength` itself exactly
when `focalLength ≤ 1`, and 1 for any larger focal length). -/
theorem projection_zero_depth (p : Point3D) (camX camY camZ cx cy f : ℚ)
    (hz : p.z = camZ) :
    1 ≤ max 1 (p.z - camZ + f) ∧
      (project3DTo2D p camX camY camZ cx cy f).scale = f / max 1 f := by
  refine ⟨le_max_left 1 _, ?_⟩
  simp [project3DTo2D, hz]

/-- Witness for C4 (amended) at a concrete input: a point at the camera's
z with the default focal length. -/
theorem projection_zero_depth_witness :
    1 ≤ max 1 ((⟨3, 4, 5⟩ : Point3D).z - 5 + 800) ∧
      (project3DTo2D ⟨3, 4, 5⟩ 0 0 5 0 0 800).scale = 800 / max 1 800 :=
  projection_zero_depth ⟨3, 4, 5⟩ 0 0 5 0 0 800 rfl

/-! ## Plant generation theorems (claim C6) -/

/-- No roll can reach the `'bulb'` branch: it is tested only when
`typeRoll ≤ 0.7`, under which `typeRoll > 0.9` is impossible. -/
theorem createPlant_type_ne_bulb (baseX baseZ : ℚ) (rnd : PlantRand) :
    (createPlant baseX baseZ rnd).type ≠ PlantType.bulb := by
  simp only [createPlant]
  split_ifs with h1 h2
  · simp
  · exfalso
    exact h1 (lt_trans (by norm_num) h2)
  · simp

/-- Claim C6: the generated plant type is `'stalk'` when the roll exceeds
0.7 and `'ribbon'` otherwise, for every roll; the `'bulb'` branch is
unreachable, so the plant list of `generateChunk` never contains a
`'bulb'` plant. -/
theorem plant_type_dead_branch :
    (∀ (baseX baseZ : ℚ) (rnd : PlantRand),
        (createPlant baseX baseZ rnd).type =
          if rnd.typeRoll > 0.7 then PlantType.stalk else PlantType.ribbon) ∧
      (∀ (cx cz : ℤ) (rnds : List PlantRand),
        ((chunkPlants cx cz rnds).map Plant.type).all
          (fun t => t ≠ PlantType.bulb) = true) := by
  constructor
  · intro baseX baseZ rnd
    simp only [createPlant]
    split_ifs with h1 h2
    · rfl
    · exact absurd (lt_trans (by norm_num) h2) h1
    · rfl
  · intro cx cz rnds
    rw [List.all_eq_true]
    intro t ht
    rcases List.mem_map.1 ht with ⟨p, hp, rfl⟩
    rcases List.mem_map.1 hp with ⟨rnd, _, rfl⟩
    simpa using createPlant_type_ne_bulb _ _ rnd

/-! ## Crab theorems (claim C9) -/

/-- Claim C9: an idle crab whose timer reaches zero transitions to walking
with a fresh target inside the offset window
`[x-400, x+400) × [z-200, z+200)` around its position, and a walking crab
whose planar distance to its target is below 10 transitions to idle with a
strictly positive fresh idle timer. -/
theorem crab_state_machine :
    (∀ (c : Crab) (dist r1 r2 : ℚ),
        c.state = CrabState.idle → c.idleTimer - 1 ≤ 0 →
        0 ≤ r1 → r1 < 1 → 0 ≤ r2 → r2 < 1 →
        (crabUpdate c dist r1 r2).state = CrabState.walking ∧
          c.x - 400 ≤ (crabUpdate c dist r1 r2).targetX ∧
          (crabUpdate c dist r1 r2).targetX < c.x + 400 ∧
          c.z - 200 ≤ (crabUpdate c dist r1 r2).targetZ ∧
          (crabUpdate c dist r1 r2).targetZ < c.z + 200) ∧
      (∀ (c : Crab) (dist r1 r2 : ℚ),
        c.state = CrabState.walking →
        0 ≤ dist →
        dist ^ 2 = (c.targetX - c.x) ^ 2 + (c.targetZ - c.z) ^ 2 →
        dist < 10 →
        0 ≤ r1 → r1 < 1 →
        (crabUpdate c dist r1 r2).state = CrabState.idle ∧
          0 < (crabUpdate c dist r1 r2).idleTimer) := by
  constructor
  · intro c dist r1 r2 hstate ht h1 h1' h2 h2'
    have ht' : c.idleTimer ≤ 1 := by linarith
    refine ⟨?_, ?_, ?_, ?_, ?_⟩
    · simp [crabUpdate, hstate, ht']
    · simp [crabUpdate, hstate, ht', randomRange]
      nlinarith
    · simp [crabUpdate, hstate, ht', randomRange]
      nlinarith
    · simp [crabUpdate, hstate, ht', randomRange]
      nlinarith
    · simp [crabUpdate, hstate, ht', randomRange]
      nlinarith
  · intro c dist r1 r2 hstate _ _ hlt h1 h1'
    refine ⟨?_, ?_⟩
    · simp [crabUpdate, hstate, if_pos hlt]
    · simp only [crabUpdate, hstate, if_pos hlt, randomRange]
      nlinarith

/-- Witness for C9 at concrete inputs: an idle crab with timer 1 at the
origin starts walking toward a target inside the window; a walking crab at
the origin with target `(3,4)` (distance 5 < 10) goes idle with a positive
timer. -/
theorem crab_state_machine_witness :
    ((crabUpdate ⟨0,0,0,40,0,9,9,2,CrabState.idle,1⟩ 7 (1/2) (1/2)).state = CrabState.walking ∧
      (0:ℚ) - 400 ≤ (crabUpdate ⟨0,0,0,40,0,9,9,2,CrabState.idle,1⟩ 7 (1/2) (1/2)).targetX ∧
      (crabUpdate ⟨0,0,0,40,0,9,9,2,CrabState.idle,1⟩ 7 (1/2) (1/2)).targetX < 0 + 400 ∧
      (0:ℚ) - 200 ≤ (crabUpdate ⟨0,0,0,40,0,9,9,2,CrabState.idle,1⟩ 7 (1/2) (1/2)).targetZ ∧
      (crabUpdate ⟨0,0,0,40,0,9,9,2,CrabState.idle,1⟩ 7 (1/2) (1/2)).targetZ < 0 + 200) ∧
      ((crabUpdate ⟨0,0,0,40,0,3,4,2,CrabState.walking,0⟩ 5 (1/2) (1/2)).state = CrabState.idle ∧
        0 < (crabUpdate ⟨0,0,0,40,0,3,4,2,CrabState.walking,0⟩ 5 (1/2) (1/2)).idleTimer) :=
  ⟨crab_state_machine.1 ⟨0,0,0,40,0,9,9,2,CrabState.idle,1⟩ 7 (1/2) (1/2)
      rfl (by norm_num) (by norm_num) (by norm_num) (by norm_num) (by norm_num),
   crab_state_machine.2 ⟨0,0,0,40,0,3,4,2,CrabState.walking,0⟩ 5 (1/2) (1/2)
      rfl (by norm_num) (by norm_num) (by norm_num) (by norm_num) (by norm_num)⟩

/-! ## Zero-distance direction theorem (claim C5)

The crab's walking branch tests `dist < 10` before ever dividing, so a crab
at zero distance goes idle and does not move — the guard the claim
describes.  The fish, however, divides `dx / dist` unconditionally after
its arrival check: at `dist = 0` the JS division is `0 / 0 = NaN` and the
fish position stops being finite.  The claim is right about the intent
(the spec's error-handling section requires a silent skip for both agents)
but the fish code lacks the guard. -/

/-- Claim C5 evaluated on the code: at planar distance 0 the crab keeps its
position (and goes idle) as claimed, but the fish update yields a
non-finite position (`none`, the model of the `0/0 = NaN` propagation) for
a fish sitting exactly on its target — refuting the claimed guard for
fish. -/
theorem zero_distance_guard_eval :
    fishUpdate 0 0 ⟨100, 500, 100, 5, 40, 0, 0, 500, 100, 100⟩ 0 (1/2) (1/2) (1/2) 0 0 =
        none ∧
      (crabUpdate ⟨50, 1350, 50, 40, 0, 50, 50, 2, CrabState.walking, 0⟩ 0 (1/2) (1/2)).x = 50 ∧
      (crabUpdate ⟨50, 1350, 50, 40, 0, 50, 50, 2, CrabState.walking, 0⟩ 0 (1/2) (1/2)).z = 50 ∧
      (crabUpdate ⟨50, 1350, 50, 40, 0, 50, 50, 2, CrabState.walking, 0⟩ 0 (1/2) (1/2)).state =
        CrabState.idle := by
  refine ⟨?_, ?_, ?_, ?_⟩
  · simp [fishUpdate]
  · norm_num [crabUpdate]
  · norm_num [crabUpdate]
  · norm_num [crabUpdate]

/-! ## Camera physics theorems (claims C8, C10) -/

/-- The three statement groups after the floor clamp (banking, friction,
look easing) leave `y`, `velY` and `isGrounded` untouched. -/
theorem post_steps_preserve (chatOpen : Bool) (inp : Input) (c : Camera) :
    (lookStep chatOpen inp (frictionStep (bankStep c))).y = c.y ∧
      (lookStep chatOpen inp (frictionStep (bankStep c))).velY = c.velY ∧
      (lookStep chatOpen inp (frictionStep (bankStep c))).isGrounded = c.isGrounded := by
  simp only [lookStep, frictionStep, bankStep]
  split <;> exact ⟨rfl, rfl, rfl⟩

/-- The floor clamp establishes the claimed invariant for any pre-state. -/
theorem floorClampStep_inv (c : Camera) :
    (floorClampStep c).y ≤ FLOOR_LEVEL - PLAYER_HEIGHT ∧
      ((floorClampStep c).isGrounded = true →
        (floorClampStep c).y = FLOOR_LEVEL - PLAYER_HEIGHT ∧ (floorClampStep c).velY = 0) := by
  simp only [floorClampStep]
  split
  · exact ⟨le_refl _, fun _ => ⟨rfl, rfl⟩⟩
  · next h =>
    push_neg at h
    exact ⟨h, fun hg => absurd hg (by simp)⟩

/-- Claim C10: after every per-frame camera physics update, regardless of
input, chat focus and gravity multiplier, the camera's `y` is at most
`FLOOR_LEVEL - PLAYER_HEIGHT`, and whenever `isGrounded` holds the `y`
equals exactly `FLOOR_LEVEL - PLAYER_HEIGHT` and the vertical velocity is
zero. -/
theorem floor_clamp_invariant (chatOpen : Bool) (g : ℚ) (inp : Input) (c : Camera) :
    (physicsStep chatOpen g inp c).y ≤ FLOOR_LEVEL - PLAYER_HEIGHT ∧
      ((physicsStep chatOpen g inp c).isGrounded = true →
        (physicsStep chatOpen g inp c).y = FLOOR_LEVEL - PLAYER_HEIGHT ∧
          (physicsStep chatOpen g inp c).velY = 0) := by
  unfold physicsStep
  obtain ⟨hy, hv, hgnd⟩ := post_steps_preserve chatOpen inp
    (floorClampStep (integrateStep (clampVelStep (zoomStep chatOpen inp
      (gravityStep g (jumpStep chatOpen g inp (accelStep chatOpen inp c)))))))
  rw [hy, hv, hgnd]
  exact floorClampStep_inv _

/-- Witness for C10 at a concrete input: a frame from rest on the floor
with gravity 1 and no input ends grounded, so the theorem pins `y` to the
floor plane and `velY` to zero there. -/
theorem floor_clamp_invariant_witness :
    (physicsStep false 1 ⟨false, false, false, false, false, false, false, 0, 0⟩
          ⟨0, 1210, 0, 800, 800, 0, 0, 0, 0, 0, 0, true⟩).y =
        FLOOR_LEVEL - PLAYER_HEIGHT ∧
      (physicsStep false 1 ⟨false, false, false, false, false, false, false, 0, 0⟩
          ⟨0, 1210, 0, 800, 800, 0, 0, 0, 0, 0, 0, true⟩).velY = 0 :=
  (floor_clamp_invariant false 1 ⟨false, false, false, false, false, false, false, 0, 0⟩
      ⟨0, 1210, 0, 800, 800, 0, 0, 0, 0, 0, 0, true⟩).2
    (by norm_num [physicsStep, lookStep, frictionStep, bankStep, floorClampStep,
      integrateStep, clampVelStep, zoomStep, gravityStep, jumpStep, accelStep,
      GRAVITY, FLOOR_LEVEL, PLAYER_HEIGHT, MAX_SPEED, max_def, min_def])

/-- Claim C8 as stated is false on the code: the frame adds the same
frame's gravity after the jump impulse, so from a grounded rest state with
`gravityMult = 1` the end-of-frame vertical velocity is
`-JUMP_FORCE + GRAVITY = -17.2`, not `-JUMP_FORCE * 1 = -18`. -/
theorem jump_impulse_cex :
    (physicsStep false 1 ⟨false, false, false, false, true, false, false, 0, 0⟩
        ⟨0, 1210, 0, 800, 800, 0, 0, 0, 0, 0, 0, true⟩).velY ≠ -JUMP_FORCE * 1 := by
  norm_num [physicsStep, lookStep, frictionStep, bankStep, floorClampStep,
    integrateStep, clampVelStep, zoomStep, gravityStep, jumpStep, accelStep,
    GRAVITY, JUMP_FORCE, FLOOR_LEVEL, PLAYER_HEIGHT, MAX_SPEED, max_def, min_def]

/-- Claim C8 amended: for a grounded, at-rest camera on the floor plane,
one frame with the jump intent active (chat closed) and a positive gravity
multiplier ends with vertical velocity
`-JUMP_FORCE * gravityMult + GRAVITY * gravityMult` — the impulse is set
to `-JUMP_FORCE * gravityMult` and the same frame's gravity increment is
then added — and with the grounded flag cleared. -/
theorem jump_impulse (c : Camera) (inp : Input) (g : ℚ)
    (hgr : c.isGrounded = true) (hy : c.y = FLOOR_LEVEL - PLAYER_HEIGHT)
    (hv : c.velY = 0) (hvx : c.velX = 0) (hvz : c.velZ = 0)
    (hjump : inp.jump = true) (hg : 0 < g) :
    (physicsStep false g inp c).velY = -JUMP_FORCE * g + GRAVITY * g ∧
      (physicsStep false g inp c).isGrounded = false := by
  set pre := clampVelStep (zoomStep false inp (gravityStep g (jumpStep false g inp
    (accelStep false inp c)))) with hpre_def
  have hpre : pre.velY = -JUMP_FORCE * g + GRAVITY * g ∧
      pre.y = FLOOR_LEVEL - PLAYER_HEIGHT := by
    rw [hpre_def]
    constructor <;>
      simp [clampVelStep, zoomStep, gravityStep, jumpStep, accelStep, hjump, hgr, hv, hy]
  have hneg : ¬ ((integrateStep pre).y > FLOOR_LEVEL - PLAYER_HEIGHT) := by
    simp only [integrateStep]
    rw [hpre.2, hpre.1]
    simp only [JUMP_FORCE, GRAVITY]
    nlinarith
  obtain ⟨_, hv', hgnd'⟩ := post_steps_preserve false inp
    (floorClampStep (integrateStep pre))
  unfold physicsStep
  rw [← hpre_def, hv', hgnd']
  simp only [floorClampStep]
  rw [if_neg hneg]
  constructor
  · simp only [integrateStep]
    exact hpre.1
  · rfl

/-- Witness for C8 (amended) at a concrete input: gravity multiplier 1,
jump intent, grounded at rest on the floor plane. -/
theorem jump_impulse_witness :
    (physicsStep false 1 ⟨false, false, false, false, true, false, false, 0, 0⟩
        ⟨0, 1210, 0, 800, 800, 0, 0, 0, 0, 0, 0, true⟩).velY =
        -JUMP_FORCE * 1 + GRAVITY * 1 ∧
      (physicsStep false 1 ⟨false, false, false, false, true, false, false, 0, 0⟩
          ⟨0, 1210, 0, 800, 800, 0, 0, 0, 0, 0, 0, true⟩).isGrounded = false :=
  jump_impulse ⟨0, 1210, 0, 800, 800, 0, 0, 0, 0, 0, 0, true⟩
    ⟨false, false, false, false, true, false, false, 0, 0⟩ 1
    rfl (by norm_num [FLOOR_LEVEL, PLAYER_HEIGHT]) rfl rfl rfl rfl (by norm_num)

end DeepSwamp
